import Mathlib

/-!
Shallow embedding of `src/main.py` of the football_stats_project repository.

The program decodes JSON from a sports API into loosely-typed nested records;
we model decoded JSON values by the inductive type `JVal`.  Python operations
that can raise (`dict.get` on a non-dict, `int(...)` on a non-numeric string,
`d[k]` on a missing key, arithmetic on non-numbers) are modelled in the
`Except String` monad, the error string naming the Python exception.

Python float arithmetic in the scoring function only ever multiplies integers
by `0.5` and adds the results; for inputs of magnitude below `2 ^ 52` this is
exact, so scores are modelled as rational numbers (`Rat`).
-/

namespace FootballStats

/-- Decoded JSON values, as returned by the API client. -/
inductive JVal where
  | null
  | num (n : Int)
  | str (s : String)
  | arr (elems : List JVal)
  | obj (fields : List (String × JVal))

/-- First binding of a key in a decoded JSON object (Python dict lookup;
keys are unique in a dict, so first-match agrees with Python). -/
def lookupField : List (String × JVal) → String → Option JVal
  | [], _ => none
  | (k, v) :: rest, key => if k = key then some v else lookupField rest key

/-- Python `d.get(key, dflt)`: on a dict returns the value or the default;
on any non-dict value it raises `AttributeError`. -/
def JVal.getD (v : JVal) (key : String) (dflt : JVal) : Except String JVal :=
  match v with
  | .obj fields =>
    match lookupField fields key with
    | some x => .ok x
    | none => .ok dflt
  | _ => .error "AttributeError"

/-- Python `d[key]` indexing: raises `KeyError` on a missing key and
`TypeError` on a non-dict. -/
def JVal.index (v : JVal) (key : String) : Except String JVal :=
  match v with
  | .obj fields =>
    match lookupField fields key with
    | some x => .ok x
    | none => .error "KeyError"
  | _ => .error "TypeError"

/-- Using a value as a string (calling `.replace` on it): raises
`AttributeError` unless it is a string. -/
def JVal.asStr : JVal → Except String String
  | .str s => .ok s
  | _ => .error "AttributeError"

/-- Using a value in arithmetic with numeric literals: raises `TypeError`
unless it is a number. -/
def JVal.asNum : JVal → Except String Int
  | .num n => .ok n
  | _ => .error "TypeError"

/-- Python truthiness of a decoded JSON value (`if x:`). -/
def JVal.truthy : JVal → Bool
  | .null => false
  | .num n => n != 0
  | .str s => !s.isEmpty
  | .arr l => !l.isEmpty
  | .obj f => !f.isEmpty

/-- Value of a nonempty all-digit character list, most significant first. -/
def digitsVal (ds : List Char) : Nat :=
  ds.foldl (fun a c => a * 10 + (c.toNat - 48)) 0

/-- Python `int(...)` on a token of sign and digits; raises `ValueError`
otherwise. -/
def pyIntDigits (ds : List Char) : Except String Int :=
  if !ds.isEmpty && ds.all Char.isDigit then .ok (digitsVal ds)
  else .error "ValueError: invalid literal for int"

/-- Python `int(s)`: strips surrounding whitespace, allows one leading sign,
then requires a nonempty digit string. -/
def pyInt (s : List Char) : Except String Int :=
  let t := ((s.dropWhile Char.isWhitespace).reverse.dropWhile Char.isWhitespace).reverse
  match t with
  | '-' :: ds => (pyIntDigits ds).map (fun n => -n)
  | '+' :: ds => pyIntDigits ds
  | ds => pyIntDigits ds

/-- Python `s.replace(c, r)` specialised to a single-character pattern, on the
character list of the string: every occurrence of `c` becomes `r`. -/
def pyReplaceChar (c : Char) (r : List Char) : List Char → List Char
  | [] => []
  | x :: xs => (if x = c then r else [x]) ++ pyReplaceChar c r xs

/-- Python `s.split()` (no argument): split on runs of whitespace, dropping
empty pieces.  `acc` holds the reversed current token. -/
def pySplitAux : List Char → List Char → List (List Char)
  | [], acc => if acc.isEmpty then [] else [acc.reverse]
  | c :: cs, acc =>
    if c.isWhitespace then
      if acc.isEmpty then pySplitAux cs []
      else acc.reverse :: pySplitAux cs []
    else pySplitAux cs (c :: acc)

/-- Python `s.split()` with no argument. -/
def pySplit (s : List Char) : List (List Char) := pySplitAux s []

/-- The replacement chain of line 125 of `main.py`:
`form.replace('W', '3 ').replace('D', '1 ').replace('L', '-1 ')`. -/
def replaceWDL (cs : List Char) : List Char :=
  pyReplaceChar 'L' ['-', '1', ' ']
    (pyReplaceChar 'D' ['1', ' ']
      (pyReplaceChar 'W' ['3', ' '] cs))

/-- Line 125 of `main.py`:
`form.replace('W', '3 ').replace('D', '1 ').replace('L', '-1 ').split()`. -/
def formTokensChars (cs : List Char) : List (List Char) :=
  pySplit (replaceWDL cs)

/-- Line 126 of `main.py`:
`sum([int(x) for x in recent_form]) if recent_form else 0` (the sum of the
empty list is also 0). -/
def recent_score_chars (cs : List Char) : Except String Int :=
  Except.map List.sum ((formTokensChars cs).mapM pyInt)

/-- The recent-form component of the score, on a form string. -/
def recent_score (form : String) : Except String Int :=
  recent_score_chars form.data

/-- The pattern `fixtures.get(key, {}).get('total', 0)` of lines 130-132 of
`main.py`, used as a number. -/
def totalOf (fixtures : JVal) (key : String) : Except String Int := do
  let o ← fixtures.getD key (.obj [])
  let t ← o.getD "total" (.num 0)
  t.asNum

/-- The pattern `goals.get(key, {}).get('total', {}).get('total', 0)` of lines
136-137 of `main.py`, used as a number. -/
def goalsTotalOf (goals : JVal) (key : String) : Except String Int := do
  let o ← goals.getD key (.obj [])
  let t ← o.getD "total" (.obj [])
  let tt ← t.getD "total" (.num 0)
  tt.asNum

/-- `calculate_score` from `predict_winner` in `main.py` (lines 117-140),
with the scoring factors wins 3, draws 1, loses -1, goals_for 0.5,
goals_against -0.5 inlined. -/
def calculate_score (team_stats : JVal) : Except String Rat := do
  let formV ← team_stats.getD "form" (.str "")
  let form ← formV.asStr
  let fixtures ← team_stats.getD "fixtures" (.obj [])
  let goals ← team_stats.getD "goals" (.obj [])
  let _lineups ← team_stats.getD "lineups" (.arr [])
  let recent ← recent_score form
  let wins ← totalOf fixtures "wins"
  let draws ← totalOf fixtures "draws"
  let loses ← totalOf fixtures "loses"
  let goals_for ← goalsTotalOf goals "for"
  let goals_against ← goalsTotalOf goals "against"
  return (recent : Rat) + ((wins * 3 + draws * 1 + loses * (-1) : Int) : Rat)
    + (goals_for : Rat) * (1 / 2) + (goals_against : Rat) * (-(1 / 2))

/-- The outcome printed by `predict_winner` (lines 145-150). -/
inductive Outcome where
  | home_win
  | away_win
  | draw
deriving DecidableEq

/-- The comparison in `predict_winner` lines 145-150: home wins if its score
is strictly greater, away wins if strictly smaller, draw on exact equality. -/
def compareScores (home_score away_score : Rat) : Outcome :=
  if home_score > away_score then .home_win
  else if away_score > home_score then .away_win
  else .draw

/-- `predict_winner` (lines 107-152), with the printed sentence abstracted to
the outcome together with both scores. -/
def predict_winner (home_team_stats away_team_stats : JVal) :
    Except String (Outcome × Rat × Rat) := do
  let home_score ← calculate_score home_team_stats
  let away_score ← calculate_score away_team_stats
  return (compareScores home_score away_score, home_score, away_score)

/-- A field list holding `key` exactly when the optional value is present. -/
def optField (key : String) : Option JVal → List (String × JVal)
  | none => []
  | some x => [(key, x)]

/-- A `TeamSeasonStats` record in which the form string and each counted leaf
may be independently absent; a `none` leaf omits that key entirely. -/
def mkStatsOpt (form : Option String) (w d l gf ga : Option Int) : JVal :=
  .obj (optField "form" (form.map .str)
    ++ [("fixtures", .obj (optField "wins" (w.map fun x => .obj [("total", .num x)])
          ++ optField "draws" (d.map fun x => .obj [("total", .num x)])
          ++ optField "loses" (l.map fun x => .obj [("total", .num x)]))),
        ("goals", .obj (optField "for" (gf.map fun x => .obj [("total", .obj [("total", .num x)])])
          ++ optField "against" (ga.map fun x => .obj [("total", .obj [("total", .num x)])])))])

/-- A fully-populated `TeamSeasonStats` record. -/
def mkStats (form : String) (w d l gf ga : Int) : JVal :=
  mkStatsOpt (some form) (some w) (some d) (some l) (some gf) (some ga)

/-- Score of one form character as the specification states it. -/
def formCharVal (c : Char) : Int :=
  if c = 'W' then 3 else if c = 'D' then 1 else if c = 'L' then -1 else 0

/-- Specification-side recent-form value: the sum of the per-character scores. -/
def formSum (cs : List Char) : Int := (cs.map formCharVal).sum

/-! Reduction lemmas for the `Except` monad operations used by the embedding. -/

@[simp]
theorem ok_bind {α β : Type} (a : α) (f : α → Except String β) :
    (Except.ok a : Except String α) >>= f = f a := rfl

@[simp]
theorem error_bind {α β : Type} (e : String) (f : α → Except String β) :
    (Except.error e : Except String α) >>= f = Except.error e := rfl

@[simp]
theorem pure_eq_ok {α : Type} (a : α) :
    (pure a : Except String α) = Except.ok a := rfl

@[simp]
theorem exceptMap_ok {α β : Type} (f : α → β) (a : α) :
    Except.map f (Except.ok a : Except String α) = Except.ok (f a) := rfl

@[simp]
theorem exceptMap_error {α β : Type} (f : α → β) (e : String) :
    Except.map f (Except.error e : Except String α) = Except.error e := rfl

/-! Evaluation of the recent-form pipeline on strings of W/D/L characters. -/

theorem pyReplaceChar_append (c : Char) (r a b : List Char) :
    pyReplaceChar c r (a ++ b) = pyReplaceChar c r a ++ pyReplaceChar c r b := by
  induction a with
  | nil => rfl
  | cons x xs ih => simp [pyReplaceChar, ih]

theorem replaceWDL_append (a b : List Char) :
    replaceWDL (a ++ b) = replaceWDL a ++ replaceWDL b := by
  simp [replaceWDL, pyReplaceChar_append]

theorem replaceWDL_cons (c : Char) (cs : List Char) :
    replaceWDL (c :: cs) = replaceWDL [c] ++ replaceWDL cs := by
  rw [← replaceWDL_append]
  rfl

theorem pySplitAux_nonws {c : Char} (h : c.isWhitespace = false) (cs acc : List Char) :
    pySplitAux (c :: cs) acc = pySplitAux cs (c :: acc) := by
  simp [pySplitAux, h]

theorem pySplitAux_ws {c : Char} (h : c.isWhitespace = true) {acc : List Char}
    (h2 : acc.isEmpty = false) (cs : List Char) :
    pySplitAux (c :: cs) acc = acc.reverse :: pySplitAux cs [] := by
  simp [pySplitAux, h, h2]

theorem pySplitAux_blockW (xs : List Char) :
    pySplitAux ('3' :: ' ' :: xs) [] = ['3'] :: pySplitAux xs [] := by
  rw [pySplitAux_nonws (by decide), pySplitAux_ws (by decide) (by decide)]
  rfl

theorem pySplitAux_blockD (xs : List Char) :
    pySplitAux ('1' :: ' ' :: xs) [] = ['1'] :: pySplitAux xs [] := by
  rw [pySplitAux_nonws (by decide), pySplitAux_ws (by decide) (by decide)]
  rfl

theorem pySplitAux_blockL (xs : List Char) :
    pySplitAux ('-' :: '1' :: ' ' :: xs) [] = ['-', '1'] :: pySplitAux xs [] := by
  rw [pySplitAux_nonws (by decide), pySplitAux_nonws (by decide),
    pySplitAux_ws (by decide) (by decide)]
  rfl

theorem formTokensChars_cons_W (cs : List Char) :
    formTokensChars ('W' :: cs) = ['3'] :: formTokensChars cs := by
  unfold formTokensChars pySplit
  rw [replaceWDL_cons]
  exact pySplitAux_blockW _

theorem formTokensChars_cons_D (cs : List Char) :
    formTokensChars ('D' :: cs) = ['1'] :: formTokensChars cs := by
  unfold formTokensChars pySplit
  rw [replaceWDL_cons]
  exact pySplitAux_blockD _

theorem formTokensChars_cons_L (cs : List Char) :
    formTokensChars ('L' :: cs) = ['-', '1'] :: formTokensChars cs := by
  unfold formTokensChars pySplit
  rw [replaceWDL_cons]
  exact pySplitAux_blockL _

/-- On a form made only of W, D, L characters, line 125's pipeline tokenizes
into one integer token per character, worth exactly the per-character score. -/
theorem mapM_pyInt_formTokens (cs : List Char)
    (h : ∀ c ∈ cs, c = 'W' ∨ c = 'D' ∨ c = 'L') :
    (formTokensChars cs).mapM pyInt = Except.ok (cs.map formCharVal) := by
  induction cs with
  | nil => rfl
  | cons c cs ih =>
    have hcs : ∀ x ∈ cs, x = 'W' ∨ x = 'D' ∨ x = 'L' :=
      fun x hx => h x (List.mem_cons_of_mem _ hx)
    have ihc := ih hcs
    rcases h c (List.mem_cons_self c cs) with hc | hc | hc <;> subst hc
    · rw [formTokensChars_cons_W, List.mapM_cons, ihc,
        show pyInt ['3'] = Except.ok 3 from rfl]
      simp [formCharVal]
    · rw [formTokensChars_cons_D, List.mapM_cons, ihc,
        show pyInt ['1'] = Except.ok 1 from rfl]
      simp [formCharVal]
    · rw [formTokensChars_cons_L, List.mapM_cons, ihc,
        show pyInt ['-', '1'] = Except.ok (-1) from rfl]
      simp [formCharVal]

/-- The recent-form component on a string of W, D, L characters is the sum of
the per-character scores. -/
theorem recent_score_chars_eval (cs : List Char)
    (h : ∀ c ∈ cs, c = 'W' ∨ c = 'D' ∨ c = 'L') :
    recent_score_chars cs = Except.ok (formSum cs) := by
  unfold recent_score_chars formSum
  rw [mapM_pyInt_formTokens cs h]
  rfl

/-! Evaluation of `calculate_score` on records with optionally absent fields. -/

theorem calculate_score_eval {ts fx gl : JVal} {form : String}
    {recent w d l gf ga : Int} {lu : JVal}
    (h1 : ts.getD "form" (.str "") = .ok (JVal.str form))
    (h2 : ts.getD "fixtures" (.obj []) = .ok fx)
    (h3 : ts.getD "goals" (.obj []) = .ok gl)
    (h4 : ts.getD "lineups" (.arr []) = .ok lu)
    (h5 : recent_score form = .ok recent)
    (h6 : totalOf fx "wins" = .ok w)
    (h7 : totalOf fx "draws" = .ok d)
    (h8 : totalOf fx "loses" = .ok l)
    (h9 : goalsTotalOf gl "for" = .ok gf)
    (h10 : goalsTotalOf gl "against" = .ok ga) :
    calculate_score ts
      = Except.ok ((recent : Rat) + ((w * 3 + d * 1 + l * (-1) : Int) : Rat)
          + (gf : Rat) * (1 / 2) + (ga : Rat) * (-(1 / 2))) := by
  simp [calculate_score, h1, h2, h3, h4, h5, h6, h7, h8, h9, h10, JVal.asStr]

theorem getD_mkStatsOpt_form (form : Option String) (w d l gf ga : Option Int) :
    (mkStatsOpt form w d l gf ga).getD "form" (.str "")
      = Except.ok (JVal.str (form.getD "")) := by
  cases form <;> simp [mkStatsOpt, optField, JVal.getD, lookupField]

theorem getD_mkStatsOpt_fixtures (form : Option String) (w d l gf ga : Option Int) :
    (mkStatsOpt form w d l gf ga).getD "fixtures" (.obj [])
      = Except.ok (.obj (optField "wins" (w.map fun x => .obj [("total", .num x)])
          ++ optField "draws" (d.map fun x => .obj [("total", .num x)])
          ++ optField "loses" (l.map fun x => .obj [("total", .num x)]))) := by
  cases form <;> simp [mkStatsOpt, optField, JVal.getD, lookupField]

theorem getD_mkStatsOpt_goals (form : Option String) (w d l gf ga : Option Int) :
    (mkStatsOpt form w d l gf ga).getD "goals" (.obj [])
      = Except.ok (.obj (optField "for" (gf.map fun x => .obj [("total", .obj [("total", .num x)])])
          ++ optField "against" (ga.map fun x => .obj [("total", .obj [("total", .num x)])]))) := by
  cases form <;> simp [mkStatsOpt, optField, JVal.getD, lookupField]

theorem getD_mkStatsOpt_lineups (form : Option String) (w d l gf ga : Option Int) :
    (mkStatsOpt form w d l gf ga).getD "lineups" (.arr [])
      = Except.ok (.arr []) := by
  cases form <;> simp [mkStatsOpt, optField, JVal.getD, lookupField]

theorem totalOf_wins (w d l : Option Int) :
    totalOf (.obj (optField "wins" (w.map fun x => .obj [("total", .num x)])
      ++ optField "draws" (d.map fun x => .obj [("total", .num x)])
      ++ optField "loses" (l.map fun x => .obj [("total", .num x)]))) "wins"
      = Except.ok (w.getD 0) := by
  cases w <;> cases d <;> cases l <;>
    simp [totalOf, optField, JVal.getD, lookupField, JVal.asNum]

theorem totalOf_draws (w d l : Option Int) :
    totalOf (.obj (optField "wins" (w.map fun x => .obj [("total", .num x)])
      ++ optField "draws" (d.map fun x => .obj [("total", .num x)])
      ++ optField "loses" (l.map fun x => .obj [("total", .num x)]))) "draws"
      = Except.ok (d.getD 0) := by
  cases w <;> cases d <;> cases l <;>
    simp [totalOf, optField, JVal.getD, lookupField, JVal.asNum]

theorem totalOf_loses (w d l : Option Int) :
    totalOf (.obj (optField "wins" (w.map fun x => .obj [("total", .num x)])
      ++ optField "draws" (d.map fun x => .obj [("total", .num x)])
      ++ optField "loses" (l.map fun x => .obj [("total", .num x)]))) "loses"
      = Except.ok (l.getD 0) := by
  cases w <;> cases d <;> cases l <;>
    simp [totalOf, optField, JVal.getD, lookupField, JVal.asNum]

theorem goalsTotalOf_for (gf ga : Option Int) :
    goalsTotalOf (.obj (optField "for" (gf.map fun x => .obj [("total", .obj [("total", .num x)])])
      ++ optField "against" (ga.map fun x => .obj [("total", .obj [("total", .num x)])]))) "for"
      = Except.ok (gf.getD 0) := by
  cases gf <;> cases ga <;>
    simp [goalsTotalOf, optField, JVal.getD, lookupField, JVal.asNum]

theorem goalsTotalOf_against (gf ga : Option Int) :
    goalsTotalOf (.obj (optField "for" (gf.map fun x => .obj [("total", .obj [("total", .num x)])])
      ++ optField "against" (ga.map fun x => .obj [("total", .obj [("total", .num x)])]))) "against"
      = Except.ok (ga.getD 0) := by
  cases gf <;> cases ga <;>
    simp [goalsTotalOf, optField, JVal.getD, lookupField, JVal.asNum]

/-- Evaluation of `calculate_score` on a stats record whose fields may each be
absent and whose form (when present) uses only W, D, L characters: every
absent field defaults to 0 or the empty string and the total is the sum of the
three components. -/
theorem calculate_score_mkStatsOpt (form : Option String) (w d l gf ga : Option Int)
    (h : ∀ c ∈ (form.getD "").data, c = 'W' ∨ c = 'D' ∨ c = 'L') :
    calculate_score (mkStatsOpt form w d l gf ga)
      = Except.ok ((formSum (form.getD "").data : Rat)
          + ((w.getD 0 * 3 + d.getD 0 * 1 + l.getD 0 * (-1) : Int) : Rat)
          + (gf.getD 0 : Rat) * (1 / 2) + (ga.getD 0 : Rat) * (-(1 / 2))) :=
  calculate_score_eval
    (getD_mkStatsOpt_form form w d l gf ga)
    (getD_mkStatsOpt_fixtures form w d l gf ga)
    (getD_mkStatsOpt_goals form w d l gf ga)
    (getD_mkStatsOpt_lineups form w d l gf ga)
    (recent_score_chars_eval _ h)
    (totalOf_wins w d l)
    (totalOf_draws w d l)
    (totalOf_loses w d l)
    (goalsTotalOf_for gf ga)
    (goalsTotalOf_against gf ga)

/-! Input validation, `validate_date` and `validate_league_id`
(lines 27-49 of `main.py`). -/

/-- A Python `datetime`: calendar date plus microseconds within the day.
`datetime.strptime(s, '%Y-%m-%d')` produces midnight (0 microseconds);
`datetime.now()` carries the time of day. -/
structure PyDateTime where
  year : Nat
  month : Nat
  day : Nat
  micros : Nat
deriving DecidableEq

/-- Injective order key for `datetime` comparison (month at most 12, day at
most 31, microseconds below one day for every value the program builds). -/
def PyDateTime.key (t : PyDateTime) : Nat :=
  ((t.year * 13 + t.month) * 32 + t.day) * 86400000000 + t.micros

/-- Gregorian leap-year rule used by Python's `datetime`. -/
def isLeapYear (y : Nat) : Bool :=
  y % 4 == 0 && (y % 100 != 0 || y % 400 == 0)

/-- Days in a month, as validated by the `datetime` constructor. -/
def daysInMonth (y m : Nat) : Nat :=
  if m = 2 then (if isLeapYear y then 29 else 28)
  else if m = 4 ∨ m = 6 ∨ m = 9 ∨ m = 11 then 30
  else 31

/-- A nonempty all-digit token. -/
def allDigits (s : List Char) : Bool := !s.isEmpty && s.all Char.isDigit

/-- `datetime.strptime(date_str, '%Y-%m-%d')`: exactly four year digits, one
or two month digits (1..12), one or two day digits valid for the month, and
nothing else; `None` models the `ValueError` caught by `validate_date`.
Years outside `datetime`'s range (year 0) also raise `ValueError`. -/
def strptime_ymd (s : String) : Option PyDateTime :=
  match s.data.splitOn '-' with
  | [ys, ms, ds] =>
    if ys.length = 4 ∧ allDigits ys ∧ allDigits ms ∧ ms.length ≤ 2
        ∧ allDigits ds ∧ ds.length ≤ 2 then
      let y := digitsVal ys
      let m := digitsVal ms
      let d := digitsVal ds
      if 1 ≤ y ∧ 1 ≤ m ∧ m ≤ 12 ∧ 1 ≤ d ∧ d ≤ daysInMonth y m then
        some ⟨y, m, d, 0⟩
      else none
    else none
  | _ => none

/-- Message of line 39 of `main.py`. -/
def invalid_fmt_msg : String := "Invalid date format. Use YYYY-MM-DD"

/-- Message of line 33 of `main.py`. -/
def future_msg : String := "Date cannot be in the future"

/-- Message of line 36 of `main.py`. -/
def too_old_msg : String := "Date too far in the past"

/-- `datetime(2014, 1, 1)`, the fixed floor date of line 35. -/
def floor_date : PyDateTime := ⟨2014, 1, 1, 0⟩

/-- `validate_date` (lines 27-39); `now` is the value of `datetime.now()` at
the moment of the call.  The `(False, message)` and `(True, date_obj)` return
pairs are modelled as `Except.error` and `Except.ok`. -/
def validate_date (now : PyDateTime) (date_str : String) : Except String PyDateTime :=
  match strptime_ymd date_str with
  | none => .error invalid_fmt_msg
  | some date_obj =>
    if date_obj.key > now.key then .error future_msg
    else if date_obj.key < floor_date.key then .error too_old_msg
    else .ok date_obj

/-- Message of line 49 of `main.py`. -/
def league_not_number_msg : String := "League ID must be a number"

/-- Message of line 46 of `main.py`. -/
def league_nonpos_msg : String := "League ID must be a positive number"

/-- `validate_league_id` (lines 41-49), with the same `Except` modelling of
the returned pairs. -/
def validate_league_id (league_id_str : String) : Except String Int :=
  match pyInt league_id_str.data with
  | .error _ => .error league_not_number_msg
  | .ok league_id =>
    if league_id ≤ 0 then .error league_nonpos_msg
    else .ok league_id

/-! The per-match part of `main` (lines 219-250), against a mocked API
client.  Printing is abstracted to a list of events. -/

/-- A team as destructured from a fixture (`teams['home']`, `teams['away']`). -/
structure TeamRef where
  id : Nat
  name : String

/-- A match as destructured from the fixtures response (lines 220-224). -/
structure MatchRec where
  fixture_id : Nat
  home : TeamRef
  away : TeamRef

/-- A mocked API client: `get_match_stats` by fixture id and `get_team_form`
by team id (league and season are fixed for the run). -/
structure ApiMock where
  match_stats : Nat → List JVal
  team_form : Nat → JVal

/-- Console output of the per-match loop, abstracted from the print calls. -/
inductive Event where
  | match_header (i : Nat) (home_name away_name : String)
  | no_stats
  | team_stats_header (team_name : JVal)
  | stat_line (stat_type stat_value : JVal)
  | analyzing
  | prediction (outcome : Outcome) (home_score away_score : Rat)
  | not_available

/-- Lines 237-239: one printed statistic, `None` rendered as `'N/A'`. -/
def render_stat_line (stat : JVal) : Except String Event := do
  let ty ← stat.index "type"
  let v ← stat.index "value"
  return Event.stat_line ty (match v with | .null => .str "N/A" | x => x)

/-- Lines 233-239: the statistics block printed for one team. -/
def render_team_stats (team_stats : JVal) : Except String (List Event) := do
  let team ← team_stats.index "team"
  let name ← team.index "name"
  let sts ← team_stats.index "statistics"
  match sts with
  | .arr items => do
    let lines ← items.mapM render_stat_line
    return Event.team_stats_header name :: lines
  | _ => .error "TypeError"

/-- Lines 230-239: `if not stats: ... else: ...` for one match's statistics. -/
def stats_phase (stats : List JVal) : Except String (List Event) :=
  if stats.isEmpty then .ok [Event.no_stats]
  else Except.map List.flatten (stats.mapM render_team_stats)

/-- Lines 219-250: processing of one match — header, statistics phase, then
team forms and either a prediction or the not-available message. -/
def process_match (api : ApiMock) (i : Nat) (m : MatchRec) : Except String (List Event) := do
  let sevs ← stats_phase (api.match_stats m.fixture_id)
  let home_team_stats := api.team_form m.home.id
  let away_team_stats := api.team_form m.away.id
  if home_team_stats.truthy && away_team_stats.truthy then do
    let p ← predict_winner home_team_stats away_team_stats
    return Event.match_header i m.home.name m.away.name :: sevs
      ++ [Event.analyzing, Event.prediction p.1 p.2.1 p.2.2]
  else
    return Event.match_header i m.home.name m.away.name :: sevs
      ++ [Event.analyzing, Event.not_available]

/-- The `for i, match in enumerate(matches, 1)` loop: matches are processed
strictly in order; an uncaught exception ends the run. -/
def process_matches (api : ApiMock) : Nat → List MatchRec → Except String (List Event)
  | _, [] => .ok []
  | i, m :: rest => do
    let evs ← process_match api i m
    let rest_evs ← process_matches api (i + 1) rest
    return evs ++ rest_evs

/-- Members of a successful `mapM` output all come from successful
applications of the function. -/
theorem exceptMapM_mem {α β : Type} (f : α → Except String β) (l : List α)
    (out : List β) (h : l.mapM f = Except.ok out) :
    ∀ b ∈ out, ∃ a ∈ l, f a = Except.ok b := by
  induction l generalizing out with
  | nil =>
    simp only [List.mapM_nil, pure_eq_ok, Except.ok.injEq] at h
    subst h
    simp
  | cons a l ih =>
    rw [List.mapM_cons] at h
    cases h1 : f a with
    | error e => rw [h1] at h; simp at h
    | ok b0 =>
      rw [h1] at h
      cases h2 : l.mapM f with
      | error e => rw [h2] at h; simp at h
      | ok out0 =>
        rw [h2] at h
        simp only [ok_bind, pure_eq_ok, Except.ok.injEq] at h
        subst h
        intro b hb
        rcases List.mem_cons.mp hb with rfl | hb0
        · exact ⟨a, List.mem_cons_self a l, h1⟩
        · obtain ⟨a', ha', hfa'⟩ := ih out0 h2 b hb0
          exact ⟨a', List.mem_cons_of_mem a ha', hfa'⟩

/-- A successfully rendered statistic line is a `stat_line` event. -/
theorem render_stat_line_shape (stat : JVal) (e : Event)
    (h : render_stat_line stat = Except.ok e) :
    ∃ t v, e = Event.stat_line t v := by
  unfold render_stat_line at h
  cases h1 : stat.index "type" with
  | error e1 => rw [h1] at h; simp at h
  | ok ty =>
    rw [h1] at h
    simp only [ok_bind] at h
    cases h2 : stat.index "value" with
    | error e2 => rw [h2] at h; simp at h
    | ok v =>
      rw [h2] at h
      simp only [ok_bind, pure_eq_ok, Except.ok.injEq] at h
      exact ⟨ty, _, h.symm⟩

/-- A successfully rendered team statistics block contains no prediction
event. -/
theorem render_team_stats_no_prediction (ts : JVal) (evs : List Event)
    (h : render_team_stats ts = Except.ok evs) (o : Outcome) (hs as_ : Rat) :
    Event.prediction o hs as_ ∉ evs := by
  unfold render_team_stats at h
  cases h1 : ts.index "team" with
  | error e1 => rw [h1] at h; simp at h
  | ok team =>
    rw [h1] at h
    simp only [ok_bind] at h
    cases h2 : team.index "name" with
    | error e2 => rw [h2] at h; simp at h
    | ok name =>
      rw [h2] at h
      simp only [ok_bind] at h
      cases h3 : ts.index "statistics" with
      | error e3 => rw [h3] at h; simp at h
      | ok sts =>
        rw [h3] at h
        simp only [ok_bind] at h
        cases sts with
        | arr items =>
          dsimp only at h
          cases h4 : items.mapM render_stat_line with
          | error e4 => rw [h4] at h; simp at h
          | ok lines =>
            rw [h4] at h
            simp only [ok_bind, pure_eq_ok, Except.ok.injEq] at h
            subst h
            intro hmem
            rcases List.mem_cons.mp hmem with heq | hline
            · exact Event.noConfusion heq
            · obtain ⟨stat, _, hok⟩ := exceptMapM_mem _ _ _ h4 _ hline
              obtain ⟨t, v, hshape⟩ := render_stat_line_shape stat _ hok
              exact Event.noConfusion hshape
        | null => simp at h
        | num n => simp at h
        | str s => simp at h
        | obj f => simp at h

/-- The statistics phase of one match produces no prediction event. -/
theorem stats_phase_no_prediction (stats : List JVal) (evs : List Event)
    (h : stats_phase stats = Except.ok evs) (o : Outcome) (hs as_ : Rat) :
    Event.prediction o hs as_ ∉ evs := by
  unfold stats_phase at h
  by_cases he : stats.isEmpty
  · rw [if_pos he] at h
    simp only [Except.ok.injEq] at h
    subst h
    simp
  · rw [if_neg he] at h
    cases h1 : stats.mapM render_team_stats with
    | error e1 => rw [h1] at h; simp at h
    | ok blocks =>
      rw [h1] at h
      simp only [exceptMap_ok, Except.ok.injEq] at h
      subst h
      intro hmem
      obtain ⟨blk, hblk, hin⟩ := List.mem_flatten.mp hmem
      obtain ⟨ts, _, hok⟩ := exceptMapM_mem _ _ _ h1 _ hblk
      exact render_team_stats_no_prediction ts _ hok o hs as_ hin

/-! Claim theorems. -/

/-- Claim C1: for every fully-populated TeamSeasonStats record with empty
form, wins `w`, draws `d`, loses `l`, goals for `gf`, goals against `ga`, the
scoring engine returns `3*w + d - l + 0.5*gf - 0.5*ga`. -/
theorem score_full_record_formula (w d l gf ga : Int) :
    calculate_score (mkStats "" w d l gf ga)
      = Except.ok (((3 * w + d - l : Int) : Rat)
          + (gf : Rat) * (1 / 2) - (ga : Rat) * (1 / 2)) := by
  rw [mkStats,
    calculate_score_mkStatsOpt (some "") (some w) (some d) (some l) (some gf) (some ga)
      (by decide)]
  have h0 : formSum ("" : String).data = 0 := by decide
  simp [h0, Option.getD]
  ring

/-- Claim C2: for every form string of W, D, L characters, the recent-form
component is the sum of +3 per W, +1 per D and -1 per L; in particular
"WWDL" yields 6 and the empty form string yields 0. -/
theorem recent_form_component_wdl :
    (∀ form : String, (∀ c ∈ form.data, c = 'W' ∨ c = 'D' ∨ c = 'L') →
        recent_score form = Except.ok (formSum form.data))
    ∧ recent_score "WWDL" = Except.ok 6
    ∧ recent_score "" = Except.ok 0 := by
  refine ⟨fun form h => recent_score_chars_eval form.data h, ?_, ?_⟩
  · exact (recent_score_chars_eval ("WWDL" : String).data (by decide)).trans
      (congrArg Except.ok (by decide))
  · exact (recent_score_chars_eval ("" : String).data (by decide)).trans
      (congrArg Except.ok (by decide))

/-- Witness for C2: the form string "WDL" satisfies the hypothesis and its
recent-form component evaluates to 3. -/
theorem recent_form_component_wdl_witness :
    (∀ c ∈ ("WDL" : String).data, c = 'W' ∨ c = 'D' ∨ c = 'L')
    ∧ recent_score "WDL" = Except.ok 3 :=
  ⟨by decide, (recent_form_component_wdl.1 "WDL" (by decide)).trans
    (congrArg Except.ok (by decide))⟩

/-- Claim C3 counterexample: a form character outside W, D, L is not ignored:
form "X" makes the scoring function raise `ValueError`; likewise a
wrongly-typed nested field ("fixtures" bound to a number) raises
`AttributeError` instead of defaulting. -/
theorem scoring_raises_on_non_wdl_form :
    calculate_score (JVal.obj [("form", JVal.str "X")])
      = Except.error "ValueError: invalid literal for int"
    ∧ calculate_score (JVal.obj [("fixtures", JVal.num 5)])
      = Except.error "AttributeError" :=
  ⟨rfl, rfl⟩

/-- Claim C3 amended: on every record whose nested fields may be absent at the
modelled levels (defaulting to 0 / empty string) and whose form string, when
present, contains only W, D, L characters, the scoring function does not raise
and returns a (finite) rational score. -/
theorem scoring_total_on_wdl_and_missing (form : Option String) (w d l gf ga : Option Int)
    (h : ∀ c ∈ (form.getD "").data, c = 'W' ∨ c = 'D' ∨ c = 'L') :
    ∃ q : Rat, calculate_score (mkStatsOpt form w d l gf ga) = Except.ok q :=
  ⟨_, calculate_score_mkStatsOpt form w d l gf ga h⟩

/-- Witness for the amended C3: a record with only some fields present and
form "WD" scores without raising. -/
theorem scoring_total_on_wdl_and_missing_witness :
    (∀ c ∈ ((some "WD" : Option String).getD "").data, c = 'W' ∨ c = 'D' ∨ c = 'L')
    ∧ ∃ q : Rat, calculate_score
        (mkStatsOpt (some "WD") none (some 4) none (some 6) none) = Except.ok q :=
  ⟨by decide,
    scoring_total_on_wdl_and_missing (some "WD") none (some 4) none (some 6) none (by decide)⟩

/-- Claim C4 counterexample: on the end-to-end scenario's mocked stats the
code's scores are not 39 and 15 — the spec's arithmetic omits the recent-form
component (9 for Team A, 5 for Team B). -/
theorem e2e_scores_not_39_15 :
    calculate_score (mkStats "WWWDL" 10 2 3 30 10) ≠ Except.ok 39
    ∧ calculate_score (mkStats "LLDWW" 5 5 5 20 20) ≠ Except.ok 15 := by
  have hA := calculate_score_mkStatsOpt (some "WWWDL") (some 10) (some 2) (some 3)
    (some 30) (some 10) (by decide)
  have hB := calculate_score_mkStatsOpt (some "LLDWW") (some 5) (some 5) (some 5)
    (some 20) (some 20) (by decide)
  have h9 : formSum ("WWWDL" : String).data = 9 := by decide
  have h5 : formSum ("LLDWW" : String).data = 5 := by decide
  constructor
  · rw [mkStats, hA]
    simp [h9, Option.getD]
    norm_num
  · rw [mkStats, hB]
    simp [h5, Option.getD]

/-- Claim C4 amended: on the end-to-end scenario's mocked stats the prediction
is HOME_WIN favoring Team A, with Team A's score 48 and Team B's score 20. -/
theorem e2e_home_win_48_20 :
    predict_winner (mkStats "WWWDL" 10 2 3 30 10) (mkStats "LLDWW" 5 5 5 20 20)
      = Except.ok (Outcome.home_win, 48, 20) := by
  have hA : calculate_score (mkStats "WWWDL" 10 2 3 30 10) = Except.ok 48 := by
    rw [mkStats, calculate_score_mkStatsOpt (some "WWWDL") (some 10) (some 2) (some 3)
      (some 30) (some 10) (by decide)]
    have h9 : formSum ("WWWDL" : String).data = 9 := by decide
    simp [h9, Option.getD]
    norm_num
  have hB : calculate_score (mkStats "LLDWW" 5 5 5 20 20) = Except.ok 20 := by
    rw [mkStats, calculate_score_mkStatsOpt (some "LLDWW") (some 5) (some 5) (some 5)
      (some 20) (some 20) (by decide)]
    have h5 : formSum ("LLDWW" : String).data = 5 := by decide
    simp [h5, Option.getD]
    norm_num
  have hc : compareScores 48 20 = Outcome.home_win := by
    unfold compareScores
    rw [if_pos (by norm_num : (48 : Rat) > 20)]
  simp [predict_winner, hA, hB, hc]

/-- Claim C5: the prediction comparator returns HOME_WIN exactly when the home
score is strictly greater, AWAY_WIN exactly when the away score is strictly
greater, and DRAW exactly on equality; it is a total function on pairs of
scores. -/
theorem predict_comparator_trichotomy (home_score away_score : Rat) :
    (compareScores home_score away_score = Outcome.home_win ↔ home_score > away_score)
    ∧ (compareScores home_score away_score = Outcome.away_win ↔ away_score > home_score)
    ∧ (compareScores home_score away_score = Outcome.draw ↔ home_score = away_score) := by
  unfold compareScores
  split_ifs with h1 h2
  · exact ⟨by simp [h1], by simp [lt_asymm h1], by simp [ne_of_gt h1]⟩
  · exact ⟨by simp [h1], by simp [h2], by simp [ne_of_lt h2]⟩
  · have heq : home_score = away_score := le_antisymm (not_lt.mp h1) (not_lt.mp h2)
    exact ⟨by simp [h1], by simp [h2], by simp [heq]⟩

/-- Claim C6: the scoring function on the fully empty record returns exactly
0 without raising. -/
theorem score_empty_record_zero :
    calculate_score (JVal.obj []) = Except.ok 0 := by
  have h := @calculate_score_eval (JVal.obj []) (.obj []) (.obj []) "" 0 0 0 0 0 0
    (.arr []) rfl rfl rfl rfl rfl rfl rfl rfl rfl rfl
  rw [h]
  norm_num

/-- Claim C7: the date validator fails with INVALID_FORMAT on strings that do
not parse as YYYY-MM-DD calendar dates, with FUTURE_DATE on dates later than
the current moment, with TOO_OLD on dates before 2014-01-01, and otherwise
returns the parsed date; in particular it rejects "2030-01-01" and
"2010-01-01" and accepts "2023-06-15". -/
theorem validate_date_spec (now : PyDateTime) :
    (∀ s, strptime_ymd s = none → validate_date now s = Except.error invalid_fmt_msg)
    ∧ (∀ s d, strptime_ymd s = some d → d.key > now.key →
        validate_date now s = Except.error future_msg)
    ∧ (∀ s d, strptime_ymd s = some d → ¬d.key > now.key → d.key < floor_date.key →
        validate_date now s = Except.error too_old_msg)
    ∧ (∀ s d, strptime_ymd s = some d → ¬d.key > now.key → ¬d.key < floor_date.key →
        validate_date now s = Except.ok d)
    ∧ (now.key < PyDateTime.key ⟨2030, 1, 1, 0⟩ →
        validate_date now "2030-01-01" = Except.error future_msg)
    ∧ (PyDateTime.key ⟨2010, 1, 1, 0⟩ ≤ now.key →
        validate_date now "2010-01-01" = Except.error too_old_msg)
    ∧ (PyDateTime.key ⟨2023, 6, 15, 0⟩ ≤ now.key →
        validate_date now "2023-06-15" = Except.ok ⟨2023, 6, 15, 0⟩) := by
  refine ⟨?_, ?_, ?_, ?_, ?_, ?_, ?_⟩
  · intro s hs
    simp [validate_date, hs]
  · intro s d hs hf
    simp [validate_date, hs, hf]
  · intro s d hs hf ho
    simp [validate_date, hs, hf, ho]
  · intro s d hs hf ho
    simp [validate_date, hs, hf, ho]
  · intro h
    have hp : strptime_ymd "2030-01-01" = some ⟨2030, 1, 1, 0⟩ := by decide
    simp [validate_date, hp, h]
  · intro h
    have hp : strptime_ymd "2010-01-01" = some ⟨2010, 1, 1, 0⟩ := by decide
    have hfl : PyDateTime.key ⟨2010, 1, 1, 0⟩ < floor_date.key := by decide
    simp [validate_date, hp, not_lt.mpr h, hfl]
  · intro h
    have hp : strptime_ymd "2023-06-15" = some ⟨2023, 6, 15, 0⟩ := by decide
    have hfl : ¬PyDateTime.key ⟨2023, 6, 15, 0⟩ < floor_date.key := by decide
    simp [validate_date, hp, not_lt.mpr h, hfl]

/-- Witness for C7: with the clock at noon on 2026-10-12, "2030-01-01" is in
the future and is rejected with the future-date message. -/
theorem validate_date_spec_witness :
    PyDateTime.key ⟨2026, 10, 12, 43200000000⟩ < PyDateTime.key ⟨2030, 1, 1, 0⟩
    ∧ validate_date ⟨2026, 10, 12, 43200000000⟩ "2030-01-01"
        = Except.error future_msg :=
  ⟨by decide, (validate_date_spec ⟨2026, 10, 12, 43200000000⟩).2.2.2.2.1 (by decide)⟩

/-- Claim C8: the league-id validator fails with NOT_A_NUMBER on strings that
are not integers, with NON_POSITIVE on integers at most 0, and otherwise
returns the integer; in particular it rejects "abc" and "-3" and accepts
"39". -/
theorem validate_league_id_spec :
    (∀ s e, pyInt s.data = Except.error e →
        validate_league_id s = Except.error league_not_number_msg)
    ∧ (∀ s n, pyInt s.data = Except.ok n → n ≤ 0 →
        validate_league_id s = Except.error league_nonpos_msg)
    ∧ (∀ s n, pyInt s.data = Except.ok n → 0 < n → validate_league_id s = Except.ok n)
    ∧ validate_league_id "abc" = Except.error league_not_number_msg
    ∧ validate_league_id "-3" = Except.error league_nonpos_msg
    ∧ validate_league_id "39" = Except.ok 39 := by
  refine ⟨?_, ?_, ?_, rfl, rfl, rfl⟩
  · intro s e h
    simp [validate_league_id, h]
  · intro s n h hn
    simp [validate_league_id, h, hn]
  · intro s n h hn
    simp [validate_league_id, h, not_le.mpr hn]

/-- Witness for C8: "-3" parses as the non-positive integer -3 and is
rejected with the non-positive message. -/
theorem validate_league_id_spec_witness :
    pyInt ("-3" : String).data = Except.ok (-3)
    ∧ validate_league_id "-3" = Except.error league_nonpos_msg :=
  ⟨rfl, validate_league_id_spec.2.1 "-3" (-3) rfl (by norm_num)⟩

/-- Claim C9: when a match's season-statistics fetch comes back empty for
either team, only that match's prediction step is skipped (the match reports
not-available and no prediction event), and the loop continues with the
remaining matches instead of terminating the run. -/
theorem skip_match_prediction_continue (api : ApiMock) (i : Nat) (m : MatchRec)
    (rest : List MatchRec) (sevs : List Event)
    (hstats : stats_phase (api.match_stats m.fixture_id) = Except.ok sevs)
    (hempty : (api.team_form m.home.id).truthy = false
      ∨ (api.team_form m.away.id).truthy = false) :
    process_match api i m
      = Except.ok (Event.match_header i m.home.name m.away.name :: sevs
          ++ [Event.analyzing, Event.not_available])
    ∧ (∀ o hs as_, Event.prediction o hs as_
        ∉ Event.match_header i m.home.name m.away.name :: sevs
          ++ [Event.analyzing, Event.not_available])
    ∧ process_matches api i (m :: rest)
      = Except.map (fun r => (Event.match_header i m.home.name m.away.name :: sevs
          ++ [Event.analyzing, Event.not_available]) ++ r)
          (process_matches api (i + 1) rest) := by
  have hff : ((api.team_form m.home.id).truthy && (api.team_form m.away.id).truthy)
      = false := by
    rcases hempty with h | h <;> simp [h]
  have h1 : process_match api i m
      = Except.ok (Event.match_header i m.home.name m.away.name :: sevs
          ++ [Event.analyzing, Event.not_available]) := by
    unfold process_match
    rw [hstats]
    simp [hff]
  refine ⟨h1, ?_, ?_⟩
  · intro o hs as_
    simp only [List.cons_append, List.mem_cons, List.mem_append,
      List.mem_singleton, not_or]
    refine ⟨by simp, stats_phase_no_prediction _ _ hstats o hs as_, by simp, by simp⟩
  · show (do
        let evs ← process_match api i m
        let rest_evs ← process_matches api (i + 1) rest
        return evs ++ rest_evs) = _
    rw [h1]
    cases h2 : process_matches api (i + 1) rest <;> simp [h2]

/-- A mocked API client for the C9 witness: no fixture statistics and an
empty (falsy) season-statistics record for every team. -/
def api_c9 : ApiMock := ⟨fun _ => [], fun _ => .obj []⟩

/-- The match used by the C9 and C10 witnesses. -/
def match_w : MatchRec := ⟨1, ⟨10, "H"⟩, ⟨20, "A"⟩⟩

/-- Witness for C9: with empty team statistics the match reports
not-available instead of predicting. -/
theorem skip_match_prediction_continue_witness :
    stats_phase (api_c9.match_stats match_w.fixture_id) = Except.ok [Event.no_stats]
    ∧ (api_c9.team_form match_w.home.id).truthy = false
    ∧ process_match api_c9 1 match_w
        = Except.ok (Event.match_header 1 match_w.home.name match_w.away.name
            :: [Event.no_stats] ++ [Event.analyzing, Event.not_available]) :=
  ⟨rfl, rfl,
    (skip_match_prediction_continue api_c9 1 match_w [] [Event.no_stats] rfl
      (Or.inl rfl)).1⟩

/-- Claim C10: when a match's fixture-statistics fetch comes back empty, only
the statistics printing is skipped (the no-statistics message is reported);
the orchestrator still fetches both teams' season statistics and, when they
are available, produces the prediction for that match. -/
theorem empty_fixture_stats_still_predicts (api : ApiMock) (i : Nat) (m : MatchRec)
    (hs : api.match_stats m.fixture_id = []) :
    (∀ hsc asc : Rat, (api.team_form m.home.id).truthy = true →
        (api.team_form m.away.id).truthy = true →
        calculate_score (api.team_form m.home.id) = Except.ok hsc →
        calculate_score (api.team_form m.away.id) = Except.ok asc →
        process_match api i m
          = Except.ok [Event.match_header i m.home.name m.away.name, Event.no_stats,
              Event.analyzing, Event.prediction (compareScores hsc asc) hsc asc])
    ∧ ((api.team_form m.home.id).truthy = false
          ∨ (api.team_form m.away.id).truthy = false →
        process_match api i m
          = Except.ok [Event.match_header i m.home.name m.away.name, Event.no_stats,
              Event.analyzing, Event.not_available]) := by
  have hsp : stats_phase (api.match_stats m.fixture_id) = Except.ok [Event.no_stats] := by
    rw [hs]
    rfl
  constructor
  · intro hsc asc th ta hh ha
    unfold process_match
    rw [hsp]
    simp [th, ta, predict_winner, hh, ha]
  · intro hff
    have h : ((api.team_form m.home.id).truthy && (api.team_form m.away.id).truthy)
        = false := by
      rcases hff with h | h <;> simp [h]
    unfold process_match
    rw [hsp]
    simp [h]

/-- A mocked API client for the C10 witness: no fixture statistics but a
populated season-statistics record (1 win) for every team. -/
def api_c10 : ApiMock := ⟨fun _ => [], fun _ => mkStats "" 1 0 0 0 0⟩

/-- Witness for C10: with empty fixture statistics but available team
statistics, the match still gets a prediction (a draw at 3 vs 3 here). -/
theorem empty_fixture_stats_still_predicts_witness :
    api_c10.match_stats match_w.fixture_id = ([] : List JVal)
    ∧ (api_c10.team_form match_w.home.id).truthy = true
    ∧ process_match api_c10 1 match_w
        = Except.ok [Event.match_header 1 match_w.home.name match_w.away.name,
            Event.no_stats, Event.analyzing,
            Event.prediction (compareScores 3 3) 3 3] := by
  have hsc : calculate_score (api_c10.team_form match_w.home.id) = Except.ok 3 := by
    show calculate_score (mkStats "" 1 0 0 0 0) = Except.ok 3
    rw [mkStats, calculate_score_mkStatsOpt (some "") (some 1) (some 0) (some 0)
      (some 0) (some 0) (by decide)]
    have h0 : formSum ("" : String).data = 0 := by decide
    simp [h0, Option.getD]
  exact ⟨rfl, rfl,
    (empty_fixture_stats_still_predicts api_c10 1 match_w rfl).1 3 3 rfl rfl hsc hsc⟩

end FootballStats
